import Mathlib

/-!
Shallow embedding of the knavigator task engine (package `engine`):
the object registry, the task factory dispatch, the sequential driver,
and the CheckPod task (parameter validation, the no-timeout check loop,
and the watch-mode event loop), together with theorems settling the
specification claims about them.

Cluster state is modelled as pure lookup functions; adapter calls made by
the tasks are recorded in explicit operation traces so that claims about
which calls happen, and in which order, can be stated.
-/

namespace Knavigator

/-- Group/version/resource triple identifying a cluster resource class. -/
structure GVR where
  group : String
  version : String
  resource : String
deriving DecidableEq

/-- ObjInfo record registered by a SubmitObj task: resource class, the
namespace, the created object names and the expected pod names.
The source field `Namespace` is rendered as `ns` (reserved word). -/
structure ObjInfo where
  gvr : GVR
  ns : String
  names : List String
  pods : List String
deriving DecidableEq

/-- Pod object: the fields of `v1.Pod` the engine reads
(`Name`, `Status.Phase`, `Spec.NodeName`). -/
structure Pod where
  name : String
  phase : String
  nodeName : String
deriving DecidableEq

/-- Node object: the fields of `v1.Node` the engine reads (`Name`, `Labels`). -/
structure K8sNode where
  name : String
  labels : List (String × String)
deriving DecidableEq

/-- Cluster API adapter state: pod lookup by namespace and name
(`Pods(ns).Get`), node lookup by name (`Nodes().Get`).
`none` models a lookup error from the underlying client. -/
structure Cluster where
  getPod : String → String → Option Pod
  getNode : String → Option K8sNode

/-- First-match association-list lookup, the model of a Go map read
returning `(value, ok)`. -/
def lookupKey {α : Type} : List (String × α) → String → Option α
  | [], _ => none
  | (k, v) :: rest, key => if k = key then some v else lookupKey rest key

/-- Go map indexing `m[key]` on a `map[string]string`: the zero value `""`
when the key is absent. -/
def labelGet (labels : List (String × String)) (key : String) : String :=
  match lookupKey labels key with
  | some v => v
  | none => ""

/-- `v1.PodRunning`. -/
def podRunning : String := "Running"

/-- Parameters of the CheckPod task (`checkPodTaskParams`).
`timeout` is the duration in nanoseconds, `0` meaning no timeout. -/
structure CheckPodTaskParams where
  refTaskId : String
  status : String
  nodeLabels : List (String × String)
  timeout : Nat
deriving DecidableEq

/-- `CheckPodTask.validate` after YAML decoding succeeded: rejects an empty
`refTaskId`, then rejects when both `status` and `nodeLabels` are empty. -/
def validate (p : CheckPodTaskParams) : Except String Unit :=
  if p.refTaskId.length = 0 then
    Except.error "missing parameter refTaskId"
  else if p.status.length = 0 ∧ p.nodeLabels.length = 0 then
    Except.error "missing parameters status and/or nodeLabels"
  else
    Except.ok ()

/-- Adapter calls a CheckPod execution can make, recorded in traces. -/
inductive ApiOp where
  | getPod (ns name : String)
  | getNode (name : String)
  | listPods (ns : String)
  | addEventHandlers (ns : String)
  | runInformer (ns : String)
deriving DecidableEq

/-- Loop body of `verifyLabels` over the required label pairs: the first
pair whose value differs from the node label (absent key reading `""`)
produces the error. -/
def checkLabelPairs (taskID : String) (pod : Pod) :
    List (String × String) → K8sNode → Except String Unit
  | [], _ => Except.ok ()
  | (key, val) :: rest, node =>
    if labelGet node.labels key ≠ val then
      Except.error (taskID ++ ": pod " ++ pod.name ++ " was scheduled on node "
        ++ pod.nodeName ++ " without label " ++ key ++ "=" ++ val)
    else checkLabelPairs taskID pod rest node

/-- `CheckPodTask.verifyLabels`: a no-op unless labels were requested and the
pod is in running phase; otherwise fetches the host node and checks every
required pair. Returns the result and the adapter calls made. -/
def verifyLabels (p : CheckPodTaskParams) (c : Cluster) (taskID : String)
    (pod : Pod) : Except String Unit × List ApiOp :=
  if p.nodeLabels.length = 0 ∨ pod.phase ≠ podRunning then
    (Except.ok (), [])
  else
    match c.getNode pod.nodeName with
    | none =>
      (Except.error (taskID ++ ": failed to get node " ++ pod.nodeName
        ++ " for pod " ++ pod.name), [ApiOp.getNode pod.nodeName])
    | some node =>
      (checkLabelPairs taskID pod p.nodeLabels node, [ApiOp.getNode pod.nodeName])

/-- `CheckPodTask.checkPods`, the no-timeout mode: one Get per expected pod
in order, failing on lookup error, on phase mismatch against `status`, or on
a label verification error; the returned trace records the adapter calls. -/
def checkPods (p : CheckPodTaskParams) (c : Cluster) (taskID ns : String) :
    List String → Except String Unit × List ApiOp
  | [] => (Except.ok (), [])
  | name :: rest =>
    match c.getPod ns name with
    | none =>
      (Except.error (taskID ++ ": failed to get pod " ++ name),
        [ApiOp.getPod ns name])
    | some pod =>
      if pod.phase ≠ p.status then
        (Except.error (taskID ++ ": pod " ++ name ++ ", status " ++ pod.phase
          ++ ", expected " ++ p.status), [ApiOp.getPod ns name])
      else
        match verifyLabels p c taskID pod with
        | (Except.error e, ops) =>
          (Except.error e, ApiOp.getPod ns name :: ops)
        | (Except.ok _, ops) =>
          let r := checkPods p c taskID ns rest
          (r.1, (ApiOp.getPod ns name :: ops) ++ r.2)

/-- Pod names fetched by single Gets, in order, extracted from a trace. -/
def podGets : List ApiOp → List String
  | [] => []
  | ApiOp.getPod _ n :: rest => n :: podGets rest
  | ApiOp.getNode _ :: rest => podGets rest
  | ApiOp.listPods _ :: rest => podGets rest
  | ApiOp.addEventHandlers _ :: rest => podGets rest
  | ApiOp.runInformer _ :: rest => podGets rest

/-- Specification-side predicate (the claim wording): the node-label check
passes for a pod, i.e. labels are only consulted for a running pod when
`nodeLabels` were given, and then the host node exists and carries every
required pair. -/
def nodeLabelsOkB (p : CheckPodTaskParams) (c : Cluster) (pod : Pod) : Bool :=
  p.nodeLabels.isEmpty || (pod.phase != podRunning) ||
    (match c.getNode pod.nodeName with
     | none => false
     | some node => p.nodeLabels.all fun kv => labelGet node.labels kv.1 == kv.2)

/-- Specification-side predicate (the claim wording): a single pod passes the
no-timeout check, i.e. the Get succeeds, the phase equals the expected
status, and the node-label check passes. -/
def podCheckOkB (p : CheckPodTaskParams) (c : Cluster) (ns name : String) : Bool :=
  match c.getPod ns name with
  | none => false
  | some pod => (pod.phase == p.status) && nodeLabelsOkB p c pod

/-- Specification-side count of pods the no-timeout loop examines: every pod
up to and including the first failing one. -/
def checkedCount (p : CheckPodTaskParams) (c : Cluster) (ns : String) :
    List String → Nat
  | [] => 0
  | name :: rest =>
    if podCheckOkB p c ns name then checkedCount p c ns rest + 1 else 1

/-- `Eng.SetObjInfo`: rejects a duplicate task ID leaving the map unchanged,
otherwise adds the entry. -/
def SetObjInfo (objMap : List (String × ObjInfo)) (taskID : String)
    (info : ObjInfo) : Except String Unit × List (String × ObjInfo) :=
  match lookupKey objMap taskID with
  | some _ => (Except.error ("SetObjInfo: duplicate task ID " ++ taskID), objMap)
  | none => (Except.ok (), objMap ++ [(taskID, info)])

/-- `Eng.GetObjInfo`: returns the stored record, or an error when the task ID
is absent. -/
def GetObjInfo (objMap : List (String × ObjInfo)) (taskID : String) :
    Except String ObjInfo :=
  match lookupKey objMap taskID with
  | none => Except.error ("GetObjInfo: missing task ID " ++ taskID)
  | some info => Except.ok info

/-- Occurrences the watch-mode event loop can observe, serialized: a pod
object delivered by the informer handlers or by the initial List feed, an
object of an unexpected type, a failure of the initial List, expiry of the
deadline derived from `timeout`, and external cancellation. -/
inductive WatchEvent where
  | podEvent (pod : Pod)
  | badObject
  | listFailed (msg : String)
  | deadline
  | canceled
deriving DecidableEq

/-- How a watch-mode CheckPod run ends. -/
inductive WatchOutcome where
  | success
  | failed (msg : String)
  | timeout
  | canceledOut
deriving DecidableEq

/-- `CheckPodTask.verifyPod`: if the delivered pod is still in the remaining
set, run `verifyLabels` (an error is signalled on the error channel), then
remove the pod; when the set becomes empty, signal success (`nil` on the
channel). Note the source never compares `pod.Status.Phase` with the
expected `status` here. Returns the new remaining set and the signal sent
on the channel, if any. -/
def verifyPod (p : CheckPodTaskParams) (c : Cluster) (taskID : String)
    (remaining : List String) (pod : Pod) :
    List String × Option (Except String Unit) :=
  if remaining.contains pod.name then
    match verifyLabels p c taskID pod with
    | (Except.error e, _) => (remaining, some (Except.error e))
    | (Except.ok _, _) =>
      let r := remaining.erase pod.name
      if r.length = 0 then (r, some (Except.ok ())) else (r, none)
  else (remaining, none)

/-- Select loop of `CheckPodTask.watchPods` run over a serialized trace of
events: deadline expiry returns the context's deadline error, cancellation
the cancellation error, a channel signal ends the task with that value, and
pod deliveries go through `verifyPod`. `none` when the trace is exhausted
with the loop still waiting. Also returns the final remaining set. -/
def watchLoop (p : CheckPodTaskParams) (c : Cluster) (taskID : String) :
    List String → List WatchEvent → Option WatchOutcome × List String
  | remaining, [] => (none, remaining)
  | remaining, e :: rest =>
    match e with
    | WatchEvent.deadline => (some WatchOutcome.timeout, remaining)
    | WatchEvent.canceled => (some WatchOutcome.canceledOut, remaining)
    | WatchEvent.badObject =>
      (some (WatchOutcome.failed
        (taskID ++ ": unexpected object type, expected Pod")), remaining)
    | WatchEvent.listFailed m =>
      (some (WatchOutcome.failed
        (taskID ++ ": failed to list pods: " ++ m)), remaining)
    | WatchEvent.podEvent pod =>
      match verifyPod p c taskID remaining pod with
      | (r, none) => watchLoop p c taskID r rest
      | (r, some (Except.ok _)) => (some WatchOutcome.success, r)
      | (r, some (Except.error m)) => (some (WatchOutcome.failed m), r)

/-- Setup calls of `watchPods` in program order: the event handlers are
registered on the informer, the informer is started, and only then the
goroutine performing the initial List is spawned. -/
def watchSetupOps (ns : String) : List ApiOp :=
  [ApiOp.addEventHandlers ns, ApiOp.runInformer ns, ApiOp.listPods ns]

/-- Watch outcome as the task result: `none` while the loop is still
waiting. -/
def outcomeResult : Option WatchOutcome → Option (Except String Unit)
  | none => none
  | some WatchOutcome.success => some (Except.ok ())
  | some (WatchOutcome.failed m) => some (Except.error m)
  | some WatchOutcome.timeout => some (Except.error "context deadline exceeded")
  | some WatchOutcome.canceledOut => some (Except.error "context canceled")

/-- `CheckPodTask.watchPods`: arm the subscription, start the informer and
the initial List, then run the event loop over the pods of the referenced
ObjInfo. -/
def watchPods (p : CheckPodTaskParams) (c : Cluster) (taskID : String)
    (info : ObjInfo) (events : List WatchEvent) :
    Option (Except String Unit) × List ApiOp :=
  (outcomeResult (watchLoop p c taskID info.pods events).1, watchSetupOps info.ns)

/-- `CheckPodTask.Exec`: look up the referenced ObjInfo; an empty pod list
succeeds immediately; `timeout = 0` runs the single-Get loop, otherwise the
watch. The first component is `none` only when a watch is still waiting. -/
def Exec (p : CheckPodTaskParams) (c : Cluster) (taskID : String)
    (registry : String → Option ObjInfo) (events : List WatchEvent) :
    Option (Except String Unit) × List ApiOp :=
  match registry p.refTaskId with
  | none => (some (Except.error ("GetObjInfo: missing task ID " ++ p.refTaskId)), [])
  | some info =>
    if info.pods.length = 0 then (some (Except.ok ()), [])
    else if p.timeout = 0 then
      let r := checkPods p c taskID info.ns info.pods
      (some r.1, r.2)
    else watchPods p c taskID info events

/-- Steps the driver takes: executing the task at an index, and the final
reset. -/
inductive DriverOp where
  | execTask (idx : Nat)
  | reset
deriving DecidableEq

/-- Task loop of `Run`: each task either succeeds (`none`) or fails with an
error; the first failure breaks the loop. Returns the loop's error and the
executed steps, indexed from `idx`. -/
def runTasksFrom (idx : Nat) : List (Option String) → Option String × List DriverOp
  | [] => (none, [])
  | t :: rest =>
    match t with
    | some e => (some e, [DriverOp.execTask idx])
    | none =>
      let r := runTasksFrom (idx + 1) rest
      (r.1, DriverOp.execTask idx :: r.2)

/-- `engine.Run`: run the tasks in order breaking on the first failure, then
invoke `Reset` once; the execution error is surfaced when present, otherwise
the reset error. -/
def Run (tasks : List (Option String)) (resetErr : Option String) :
    Option String × List DriverOp :=
  let r := runTasksFrom 0 tasks
  let err := match r.1 with
    | some e => some e
    | none => resetErr
  (err, r.2 ++ [DriverOp.reset])

/-- Modelled from the spec: the task-kind names of the closed enumeration of
the data model; their constant declarations are outside the provided source
files, which use them only in the factory switch. -/
def TaskSubmitObj : String := "SubmitObj"

/-- Modelled from the spec: see `TaskSubmitObj`. -/
def TaskUpdateObj : String := "UpdateObj"

/-- Modelled from the spec: see `TaskSubmitObj`. -/
def TaskCheckObj : String := "CheckObj"

/-- Modelled from the spec: see `TaskSubmitObj`. -/
def TaskDeleteObj : String := "DeleteObj"

/-- Modelled from the spec: see `TaskSubmitObj`. -/
def TaskUpdateNodes : String := "UpdateNodes"

/-- Modelled from the spec: see `TaskSubmitObj`. -/
def TaskCheckPod : String := "CheckPod"

/-- Modelled from the spec: see `TaskSubmitObj`. -/
def TaskSleep : String := "Sleep"

/-- Modelled from the spec: see `TaskSubmitObj`. -/
def TaskPause : String := "Pause"

/-- The closed task-kind enumeration. -/
def taskKinds : List String :=
  [TaskSubmitObj, TaskUpdateObj, TaskCheckObj, TaskDeleteObj,
   TaskUpdateNodes, TaskCheckPod, TaskSleep, TaskPause]

/-- The four kinds whose factory branch checks `refTaskId` against the
registry (`UpdateObj`, `CheckObj`, `DeleteObj`, `CheckPod`). -/
def refKinds : List String :=
  [TaskUpdateObj, TaskCheckObj, TaskDeleteObj, TaskCheckPod]

/-- A task value returned by the factory, reduced to its tag and, for the
reference-bearing kinds, the `refTaskId` its constructor parsed. -/
inductive BuiltTask where
  | submitObj
  | updateObj (refTaskId : String)
  | checkObj (refTaskId : String)
  | deleteObj (refTaskId : String)
  | updateNodes
  | checkPod (refTaskId : String)
  | sleep
  | pause
deriving DecidableEq

/-- Registry guard the four reference-bearing branches share: after the
constructor succeeded, `eng.objMap` is consulted and an absent `refTaskId`
is an unreferenced-task-ID error. -/
def refLookupGuard (objMap : List (String × ObjInfo)) (taskID : String)
    (t : BuiltTask) (ref : String) : Except String BuiltTask :=
  match lookupKey objMap ref with
  | some _ => Except.ok t
  | none => Except.error (taskID ++ ": unreferenced task ID " ++ ref)

/-- `Eng.GetTask`: the factory switch over the task type. `ctor` abstracts
the branch's constructor call on the given descriptor: an error, or success
carrying the `refTaskId` the constructor decoded (ignored by the kinds that
have none; `newPauseTask` cannot fail). A type outside the enumeration is
rejected as unsupported. -/
def GetTask (objMap : List (String × ObjInfo)) (taskType taskID : String)
    (ctor : Except String String) : Except String BuiltTask :=
  if taskType = TaskSubmitObj then
    match ctor with
    | Except.error e => Except.error e
    | Except.ok _ => Except.ok BuiltTask.submitObj
  else if taskType = TaskUpdateObj then
    match ctor with
    | Except.error e => Except.error e
    | Except.ok ref => refLookupGuard objMap taskID (BuiltTask.updateObj ref) ref
  else if taskType = TaskCheckObj then
    match ctor with
    | Except.error e => Except.error e
    | Except.ok ref => refLookupGuard objMap taskID (BuiltTask.checkObj ref) ref
  else if taskType = TaskDeleteObj then
    match ctor with
    | Except.error e => Except.error e
    | Except.ok ref => refLookupGuard objMap taskID (BuiltTask.deleteObj ref) ref
  else if taskType = TaskUpdateNodes then
    match ctor with
    | Except.error e => Except.error e
    | Except.ok _ => Except.ok BuiltTask.updateNodes
  else if taskType = TaskCheckPod then
    match ctor with
    | Except.error e => Except.error e
    | Except.ok ref => refLookupGuard objMap taskID (BuiltTask.checkPod ref) ref
  else if taskType = TaskSleep then
    match ctor with
    | Except.error e => Except.error e
    | Except.ok _ => Except.ok BuiltTask.sleep
  else if taskType = TaskPause then
    Except.ok BuiltTask.pause
  else
    Except.error ("unsupported task type " ++ taskType)

/-- Sample resource class for concrete instantiations. -/
def sampleGVR : GVR := ⟨"batch", "v1", "jobs"⟩

/-- ObjInfo with an empty expected-pod list. -/
def infoNoPods : ObjInfo := ⟨sampleGVR, "ns1", ["j0"], []⟩

/-- ObjInfo expecting the single pod `p1`. -/
def infoOnePod : ObjInfo := ⟨sampleGVR, "ns1", ["j0"], ["p1"]⟩

/-- A pod stuck in Pending phase on node `n1`. -/
def podPending : Pod := ⟨"p1", "Pending", "n1"⟩

/-- Cluster holding only `podPending`; node lookups fail. -/
def clusterPending : Cluster :=
  ⟨fun _ name => if name = "p1" then some podPending else none, fun _ => none⟩

/-- Registry mapping task `job` to `infoNoPods`. -/
def registryNoPods : String → Option ObjInfo :=
  fun t => if t = "job" then some infoNoPods else none

/-- Registry mapping task `job` to `infoOnePod`. -/
def registryOnePod : String → Option ObjInfo :=
  fun t => if t = "job" then some infoOnePod else none

/-- CheckPod parameters in no-timeout mode expecting phase Completed. -/
def paramsNoTimeout : CheckPodTaskParams := ⟨"job", "Completed", [], 0⟩

/-- CheckPod parameters in watch mode expecting phase Completed. -/
def paramsTimeout : CheckPodTaskParams := ⟨"job", "Completed", [], 5000000000⟩

/-- CheckPod parameters with no `status`, only `nodeLabels`. -/
def paramsLabelsOnly : CheckPodTaskParams := ⟨"job", "", [("nodeType", "gpu")], 0⟩

theorem lookupKey_append {α : Type} (m1 m2 : List (String × α)) (key : String) :
    lookupKey (m1 ++ m2) key =
      match lookupKey m1 key with
      | some v => some v
      | none => lookupKey m2 key := by
  induction m1 with
  | nil => simp [lookupKey]
  | cons hd tl ih =>
    obtain ⟨k, v⟩ := hd
    by_cases hk : k = key
    · simp [lookupKey, hk]
    · simp [lookupKey, hk, ih]

theorem checkLabelPairs_ok_iff (taskID : String) (pod : Pod)
    (pairs : List (String × String)) (node : K8sNode) :
    checkLabelPairs taskID pod pairs node = Except.ok () ↔
      pairs.all (fun kv => labelGet node.labels kv.1 == kv.2) = true := by
  induction pairs with
  | nil => simp [checkLabelPairs]
  | cons kv rest ih =>
    obtain ⟨key, val⟩ := kv
    by_cases h : labelGet node.labels key = val
    · simp [checkLabelPairs, h, ih]
    · simp [checkLabelPairs, h]

theorem verifyLabels_ok_iff (p : CheckPodTaskParams) (c : Cluster)
    (taskID : String) (pod : Pod) :
    (verifyLabels p c taskID pod).1 = Except.ok () ↔
      nodeLabelsOkB p c pod = true := by
  unfold verifyLabels nodeLabelsOkB
  by_cases h1 : p.nodeLabels.length = 0 ∨ pod.phase ≠ podRunning
  · rw [if_pos h1]
    rcases h1 with h | h
    · have : p.nodeLabels.isEmpty = true := by
        cases hl : p.nodeLabels with
        | nil => rfl
        | cons a l => rw [hl] at h; simp at h
      simp [this]
    · simp [bne_iff_ne, h]
  · rw [if_neg h1]
    push_neg at h1
    obtain ⟨hlen, hphase⟩ := h1
    have hempty : p.nodeLabels.isEmpty = false := by
      cases hl : p.nodeLabels with
      | nil => rw [hl] at hlen; simp at hlen
      | cons a l => rfl
    have hbne : (pod.phase != podRunning) = false := by
      simp [bne_iff_ne, hphase]
    cases hn : c.getNode pod.nodeName with
    | none => simp [hempty, hbne]
    | some node => simp [hempty, hbne, checkLabelPairs_ok_iff]

theorem podGets_append (a b : List ApiOp) :
    podGets (a ++ b) = podGets a ++ podGets b := by
  induction a with
  | nil => simp [podGets]
  | cons op rest ih => cases op <;> simp [podGets, ih]

theorem podGets_verifyLabels (p : CheckPodTaskParams) (c : Cluster)
    (taskID : String) (pod : Pod) :
    podGets (verifyLabels p c taskID pod).2 = [] := by
  unfold verifyLabels
  by_cases h : p.nodeLabels.length = 0 ∨ pod.phase ≠ podRunning
  · rw [if_pos h]; rfl
  · rw [if_neg h]
    cases hn : c.getNode pod.nodeName <;> simp [podGets]

theorem checkPods_ok_iff (p : CheckPodTaskParams) (c : Cluster)
    (taskID ns : String) (pods : List String) :
    (checkPods p c taskID ns pods).1 = Except.ok () ↔
      pods.all (podCheckOkB p c ns) = true := by
  induction pods with
  | nil => simp [checkPods]
  | cons name rest ih =>
    unfold checkPods
    cases hg : c.getPod ns name with
    | none => simp [podCheckOkB, hg]
    | some pod =>
      dsimp only
      by_cases hp : pod.phase = p.status
      · rw [if_neg (by simpa using hp)]
        rcases hv : verifyLabels p c taskID pod with ⟨res, ops⟩
        cases res with
        | error e =>
          have hnl : nodeLabelsOkB p c pod = false := by
            by_contra hcon
            have : nodeLabelsOkB p c pod = true := by
              cases hb : nodeLabelsOkB p c pod
              · exact absurd hb hcon
              · rfl
            have := (verifyLabels_ok_iff p c taskID pod).2 this
            rw [hv] at this
            simp at this
          simp [podCheckOkB, hg, hnl]
        | ok u =>
          have hnl : nodeLabelsOkB p c pod = true := by
            have := (verifyLabels_ok_iff p c taskID pod).1 (by rw [hv])
            exact this
          simp [podCheckOkB, hg, hnl, hp, ih]
      · rw [if_pos (by simpa using hp)]
        simp [podCheckOkB, hg, hp]

theorem checkPods_trace (p : CheckPodTaskParams) (c : Cluster)
    (taskID ns : String) (pods : List String) :
    podGets (checkPods p c taskID ns pods).2 =
      pods.take (checkedCount p c ns pods) := by
  induction pods with
  | nil => simp [checkPods, checkedCount, podGets]
  | cons name rest ih =>
    unfold checkPods checkedCount
    cases hg : c.getPod ns name with
    | none =>
      have hok : podCheckOkB p c ns name = false := by simp [podCheckOkB, hg]
      simp [hok, podGets]
    | some pod =>
      dsimp only
      by_cases hp : pod.phase = p.status
      · rw [if_neg (by simpa using hp)]
        rcases hv : verifyLabels p c taskID pod with ⟨res, ops⟩
        have hops : podGets ops = [] := by
          have := podGets_verifyLabels p c taskID pod
          rw [hv] at this
          exact this
        cases res with
        | error e =>
          have hnl : nodeLabelsOkB p c pod = false := by
            by_contra hcon
            have htr : nodeLabelsOkB p c pod = true := by
              cases hb : nodeLabelsOkB p c pod
              · exact absurd hb hcon
              · rfl
            have := (verifyLabels_ok_iff p c taskID pod).2 htr
            rw [hv] at this
            simp at this
          have hok : podCheckOkB p c ns name = false := by
            simp [podCheckOkB, hg, hnl]
          simp [hok, podGets, hops]
        | ok u =>
          have hnl : nodeLabelsOkB p c pod = true :=
            (verifyLabels_ok_iff p c taskID pod).1 (by rw [hv])
          have hok : podCheckOkB p c ns name = true := by
            simp [podCheckOkB, hg, hnl, hp]
          simp [hok, podGets, podGets_append, hops, ih]
      · rw [if_pos (by simpa using hp)]
        have hok : podCheckOkB p c ns name = false := by
          simp [podCheckOkB, hg, hp]
        simp [hok, podGets]

theorem verifyPod_ok_empty (p : CheckPodTaskParams) (c : Cluster)
    (taskID : String) (remaining : List String) (pod : Pod)
    (r : List String) (u : Unit)
    (h : verifyPod p c taskID remaining pod = (r, some (Except.ok u))) :
    r = [] := by
  unfold verifyPod at h
  by_cases hc : remaining.contains pod.name
  · rw [if_pos hc] at h
    rcases hv : verifyLabels p c taskID pod with ⟨res, ops⟩
    rw [hv] at h
    cases res with
    | error e => simp at h
    | ok v =>
      dsimp only at h
      by_cases hlen : (remaining.erase pod.name).length = 0
      · rw [if_pos hlen] at h
        have hr : remaining.erase pod.name = r := by
          simpa using congrArg Prod.fst h
        rw [← hr]
        exact List.length_eq_zero.mp hlen
      · rw [if_neg hlen] at h
        simp at h
  · rw [if_neg hc] at h
    simp at h

theorem watchLoop_terminates (p : CheckPodTaskParams) (c : Cluster)
    (taskID : String) :
    ∀ (events : List WatchEvent) (remaining : List String),
      (WatchEvent.deadline ∈ events ∨ WatchEvent.canceled ∈ events) →
      ∃ o rem2, watchLoop p c taskID remaining events = (some o, rem2) := by
  intro events
  induction events with
  | nil => intro remaining h; simp at h
  | cons e rest ih =>
    intro remaining h
    cases e with
    | deadline => exact ⟨WatchOutcome.timeout, remaining, rfl⟩
    | canceled => exact ⟨WatchOutcome.canceledOut, remaining, rfl⟩
    | badObject =>
      exact ⟨WatchOutcome.failed (taskID ++ ": unexpected object type, expected Pod"),
        remaining, rfl⟩
    | listFailed m =>
      exact ⟨WatchOutcome.failed (taskID ++ ": failed to list pods: " ++ m),
        remaining, rfl⟩
    | podEvent pod =>
      have h2 : WatchEvent.deadline ∈ rest ∨ WatchEvent.canceled ∈ rest := by
        rcases h with h | h
        · left; simpa using h
        · right; simpa using h
      rcases hv : verifyPod p c taskID remaining pod with ⟨r, sig⟩
      cases sig with
      | none =>
        obtain ⟨o, rem2, hrec⟩ := ih r h2
        exact ⟨o, rem2, by simp [watchLoop, hv, hrec]⟩
      | some res =>
        cases res with
        | ok u => exact ⟨WatchOutcome.success, r, by simp [watchLoop, hv]⟩
        | error m => exact ⟨WatchOutcome.failed m, r, by simp [watchLoop, hv]⟩

theorem watchLoop_success_empty (p : CheckPodTaskParams) (c : Cluster)
    (taskID : String) :
    ∀ (events : List WatchEvent) (remaining : List String)
      (o : WatchOutcome) (rem2 : List String),
      watchLoop p c taskID remaining events = (some o, rem2) →
      o = WatchOutcome.success → rem2 = [] := by
  intro events
  induction events with
  | nil => intro remaining o rem2 h _; simp [watchLoop] at h
  | cons e rest ih =>
    intro remaining o rem2 h ho
    subst ho
    cases e with
    | deadline => simp [watchLoop] at h
    | canceled => simp [watchLoop] at h
    | badObject => simp [watchLoop] at h
    | listFailed m => simp [watchLoop] at h
    | podEvent pod =>
      rcases hv : verifyPod p c taskID remaining pod with ⟨r, sig⟩
      cases sig with
      | none =>
        rw [watchLoop, hv] at h
        exact ih r WatchOutcome.success rem2 h rfl
      | some res =>
        cases res with
        | ok u =>
          rw [watchLoop, hv] at h
          have hr : r = rem2 := by simpa using congrArg Prod.snd h
          rw [← hr]
          exact verifyPod_ok_empty p c taskID remaining pod r u hv
        | error m => rw [watchLoop, hv] at h; simp at h

theorem watchLoop_timeout_mem (p : CheckPodTaskParams) (c : Cluster)
    (taskID : String) :
    ∀ (events : List WatchEvent) (remaining rem2 : List String),
      watchLoop p c taskID remaining events = (some WatchOutcome.timeout, rem2) →
      WatchEvent.deadline ∈ events := by
  intro events
  induction events with
  | nil => intro remaining rem2 h; simp [watchLoop] at h
  | cons e rest ih =>
    intro remaining rem2 h
    cases e with
    | deadline => exact List.mem_cons_self _ _
    | canceled => simp [watchLoop] at h
    | badObject => simp [watchLoop] at h
    | listFailed m => simp [watchLoop] at h
    | podEvent pod =>
      rcases hv : verifyPod p c taskID remaining pod with ⟨r, sig⟩
      cases sig with
      | none =>
        rw [watchLoop, hv] at h
        exact List.mem_cons_of_mem _ (ih r rem2 h)
      | some res =>
        cases res with
        | ok u => rw [watchLoop, hv] at h; simp at h
        | error m => rw [watchLoop, hv] at h; simp at h

theorem watchLoop_canceled_mem (p : CheckPodTaskParams) (c : Cluster)
    (taskID : String) :
    ∀ (events : List WatchEvent) (remaining rem2 : List String),
      watchLoop p c taskID remaining events = (some WatchOutcome.canceledOut, rem2) →
      WatchEvent.canceled ∈ events := by
  intro events
  induction events with
  | nil => intro remaining rem2 h; simp [watchLoop] at h
  | cons e rest ih =>
    intro remaining rem2 h
    cases e with
    | deadline => simp [watchLoop] at h
    | canceled => exact List.mem_cons_self _ _
    | badObject => simp [watchLoop] at h
    | listFailed m => simp [watchLoop] at h
    | podEvent pod =>
      rcases hv : verifyPod p c taskID remaining pod with ⟨r, sig⟩
      cases sig with
      | none =>
        rw [watchLoop, hv] at h
        exact List.mem_cons_of_mem _ (ih r rem2 h)
      | some res =>
        cases res with
        | ok u => rw [watchLoop, hv] at h; simp at h
        | error m => rw [watchLoop, hv] at h; simp at h

/-- C1: the watch-mode verification path does not check the pod phase: at a
concrete input with expected status `Completed`, a delivered pod stuck in
`Pending` is removed from the remaining set and the run ends successfully,
although `watchPods` documents that it compares statuses with the expected
one and runs until all are equal. -/
theorem watch_mode_skips_phase_comparison :
    watchLoop paramsTimeout clusterPending "check" ["p1"]
      [WatchEvent.podEvent podPending] = (some WatchOutcome.success, [])
    ∧ podPending.phase ≠ paramsTimeout.status := by
  constructor
  · rfl
  · decide

/-- C4: in watch mode, once the deadline or a cancellation occurs in the
event trace, the loop terminates, and it does so with exactly one of:
success (and then the remaining set was emptied), a first delivered error,
timeout (only when the deadline occurred), or cancellation (only when a
cancellation occurred). -/
theorem watch_exit_conditions (p : CheckPodTaskParams) (c : Cluster)
    (taskID : String) (remaining : List String) (events : List WatchEvent)
    (hterm : WatchEvent.deadline ∈ events ∨ WatchEvent.canceled ∈ events) :
    ∃ o rem2, watchLoop p c taskID remaining events = (some o, rem2)
      ∧ (o = WatchOutcome.success → rem2 = [])
      ∧ (o = WatchOutcome.timeout → WatchEvent.deadline ∈ events)
      ∧ (o = WatchOutcome.canceledOut → WatchEvent.canceled ∈ events)
      ∧ (o = WatchOutcome.success ∨ (∃ m, o = WatchOutcome.failed m)
          ∨ o = WatchOutcome.timeout ∨ o = WatchOutcome.canceledOut) := by
  obtain ⟨o, rem2, h⟩ := watchLoop_terminates p c taskID events remaining hterm
  refine ⟨o, rem2, h, ?_, ?_, ?_, ?_⟩
  · intro ho
    exact watchLoop_success_empty p c taskID events remaining o rem2 h ho
  · intro ho
    rw [ho] at h
    exact watchLoop_timeout_mem p c taskID events remaining rem2 h
  · intro ho
    rw [ho] at h
    exact watchLoop_canceled_mem p c taskID events remaining rem2 h
  · cases o with
    | success => exact Or.inl rfl
    | failed m => exact Or.inr (Or.inl ⟨m, rfl⟩)
    | timeout => exact Or.inr (Or.inr (Or.inl rfl))
    | canceledOut => exact Or.inr (Or.inr (Or.inr rfl))

/-- Witness for `watch_exit_conditions` at a concrete trace ending in the
deadline. -/
theorem watch_exit_conditions_witness :
    ∃ o rem2,
      watchLoop paramsTimeout clusterPending "check" ["p1"]
          [WatchEvent.podEvent podPending, WatchEvent.deadline]
        = (some o, rem2)
      ∧ (o = WatchOutcome.success → rem2 = [])
      ∧ (o = WatchOutcome.timeout →
          WatchEvent.deadline ∈ [WatchEvent.podEvent podPending, WatchEvent.deadline])
      ∧ (o = WatchOutcome.canceledOut →
          WatchEvent.canceled ∈ [WatchEvent.podEvent podPending, WatchEvent.deadline])
      ∧ (o = WatchOutcome.success ∨ (∃ m, o = WatchOutcome.failed m)
          ∨ o = WatchOutcome.timeout ∨ o = WatchOutcome.canceledOut) :=
  watch_exit_conditions paramsTimeout clusterPending "check" ["p1"]
    [WatchEvent.podEvent podPending, WatchEvent.deadline] (Or.inl (by simp))

/-- C2: in no-timeout mode, the task succeeds exactly when every expected
pod passes the single-Get check (Get succeeds, phase equals the expected
status, node labels verified for running pods when requested); the pod Gets
it performs are exactly the listed pods, in order, up to and including the
first failing one; and the label check passes exactly when it is vacuous or
the host node carries every required pair. -/
theorem check_pods_contract (p : CheckPodTaskParams) (c : Cluster)
    (taskID ns : String) (pods : List String) (pod : Pod) :
    ((checkPods p c taskID ns pods).1 = Except.ok ()
        ↔ pods.all (podCheckOkB p c ns) = true)
    ∧ podGets (checkPods p c taskID ns pods).2
        = pods.take (checkedCount p c ns pods)
    ∧ ((verifyLabels p c taskID pod).1 = Except.ok ()
        ↔ nodeLabelsOkB p c pod = true) :=
  ⟨checkPods_ok_iff p c taskID ns pods,
   checkPods_trace p c taskID ns pods,
   verifyLabels_ok_iff p c taskID pod⟩

/-- C7: CheckPod parameter validation succeeds exactly when `refTaskId` is
non-empty and at least one of `status` and `nodeLabels` is provided. -/
theorem check_pod_validate (p : CheckPodTaskParams) :
    validate p = Except.ok () ↔
      (p.refTaskId.length ≠ 0 ∧ (p.status.length ≠ 0 ∨ p.nodeLabels ≠ [])) := by
  unfold validate
  by_cases h1 : p.refTaskId.length = 0
  · simp [h1]
  · by_cases h2 : p.status.length = 0 ∧ p.nodeLabels.length = 0
    · rw [if_neg h1, if_pos h2]
      simp [h1, h2.1, List.length_eq_zero.mp h2.2]
    · rw [if_neg h1, if_neg h2]
      simp only [true_iff, iff_true]
      refine ⟨h1, ?_⟩
      by_cases hs : p.status.length = 0
      · right
        intro hnil
        exact h2 ⟨hs, by simp [hnil]⟩
      · left
        exact hs

/-- C9: in the watch-mode setup sequence, the informer event handlers are
registered strictly before the initial List of pods is started. -/
theorem watch_list_after_handlers (ns : String) :
    ∃ i j, i < j
      ∧ (watchSetupOps ns).get? i = some (ApiOp.addEventHandlers ns)
      ∧ (watchSetupOps ns).get? j = some (ApiOp.listPods ns) :=
  ⟨0, 2, by omega, rfl, rfl⟩

/-- C6: the registry rejects a duplicate task ID leaving the map unchanged
and otherwise stores the entry without touching other keys; lookup fails
exactly on an absent ID and otherwise returns the stored record. -/
theorem registry_set_get (objMap : List (String × ObjInfo)) (taskID : String)
    (info : ObjInfo) :
    ((lookupKey objMap taskID).isSome = true →
        SetObjInfo objMap taskID info
          = (Except.error ("SetObjInfo: duplicate task ID " ++ taskID), objMap))
    ∧ (lookupKey objMap taskID = none →
        (SetObjInfo objMap taskID info).1 = Except.ok ()
        ∧ lookupKey (SetObjInfo objMap taskID info).2 taskID = some info
        ∧ ∀ k, k ≠ taskID →
            lookupKey (SetObjInfo objMap taskID info).2 k = lookupKey objMap k)
    ∧ (GetObjInfo objMap taskID
        = Except.error ("GetObjInfo: missing task ID " ++ taskID)
        ↔ lookupKey objMap taskID = none)
    ∧ (∀ i, lookupKey objMap taskID = some i →
        GetObjInfo objMap taskID = Except.ok i) := by
  refine ⟨?_, ?_, ?_, ?_⟩
  · intro h
    cases hl : lookupKey objMap taskID with
    | none => rw [hl] at h; simp at h
    | some v => simp [SetObjInfo, hl]
  · intro h
    refine ⟨by simp [SetObjInfo, h], ?_, ?_⟩
    · rw [SetObjInfo]
      rw [h]
      dsimp only
      rw [lookupKey_append, h]
      simp [lookupKey]
    · intro k hk
      rw [SetObjInfo, h]
      dsimp only
      rw [lookupKey_append]
      cases hlk : lookupKey objMap k with
      | some v => rfl
      | none =>
        have hne : ¬taskID = k := fun he => hk he.symm
        simp [lookupKey, hne]
  · cases hl : lookupKey objMap taskID with
    | none => simp [GetObjInfo, hl]
    | some v => simp [GetObjInfo, hl]
  · intro i h
    simp [GetObjInfo, h]

theorem reset_not_mem_runTasksFrom :
    ∀ (tasks : List (Option String)) (idx : Nat),
      DriverOp.reset ∉ (runTasksFrom idx tasks).2 := by
  intro tasks
  induction tasks with
  | nil => intro idx; simp [runTasksFrom]
  | cons t rest ih =>
    intro idx
    cases t with
    | some e => simp [runTasksFrom]
    | none =>
      simp only [runTasksFrom, List.mem_cons]
      push_neg
      exact ⟨by simp, ih (idx + 1)⟩

theorem runTasksFrom_no_fail (tasks : List (Option String)) :
    ∀ idx, tasks.findSome? id = none →
      runTasksFrom idx tasks
        = (none, (List.range' idx tasks.length).map DriverOp.execTask) := by
  induction tasks with
  | nil => intro idx _; simp [runTasksFrom, List.range']
  | cons t rest ih =>
    intro idx h
    cases t with
    | some e => simp [List.findSome?_cons] at h
    | none =>
      have h2 : rest.findSome? id = none := by
        simpa [List.findSome?_cons] using h
      simp [runTasksFrom, ih (idx + 1) h2, List.range'_succ]

theorem runTasksFrom_first_fail (tasks : List (Option String)) :
    ∀ idx k e, tasks.get? k = some (some e) →
      (∀ j, j < k → tasks.get? j = some none) →
      runTasksFrom idx tasks
        = (some e, (List.range' idx (k + 1)).map DriverOp.execTask) := by
  induction tasks with
  | nil => intro idx k e hk _; simp at hk
  | cons t rest ih =>
    intro idx k e hk hb
    cases k with
    | zero =>
      have ht : t = some e := by simpa using hk
      subst ht
      simp [runTasksFrom, List.range'_succ, List.range']
    | succ k0 =>
      have h0 : t = none := by
        have := hb 0 (Nat.succ_pos k0)
        simpa using this
      subst h0
      have hk0 : rest.get? k0 = some (some e) := by simpa using hk
      have hb0 : ∀ j, j < k0 → rest.get? j = some none := by
        intro j hj
        have := hb (j + 1) (Nat.succ_lt_succ hj)
        simpa using this
      simp [runTasksFrom, ih (idx + 1) k0 e hk0 hb0, List.range'_succ]

/-- C3: the driver executes the tasks in input order, stops at the first
failure, always invokes reset exactly once, and surfaces the execution
error when one occurred (whatever reset returned), otherwise the reset
result. -/
theorem run_driver_contract (tasks : List (Option String))
    (resetErr : Option String) :
    (Run tasks resetErr).2.count DriverOp.reset = 1
    ∧ (tasks.findSome? id = none →
        (Run tasks resetErr).1 = resetErr
        ∧ (Run tasks resetErr).2
            = (List.range tasks.length).map DriverOp.execTask ++ [DriverOp.reset])
    ∧ (∀ k e, tasks.get? k = some (some e) →
        (∀ j, j < k → tasks.get? j = some none) →
        (Run tasks resetErr).1 = some e
        ∧ (Run tasks resetErr).2
            = (List.range (k + 1)).map DriverOp.execTask ++ [DriverOp.reset]) := by
  refine ⟨?_, ?_, ?_⟩
  · unfold Run
    rw [List.count_append]
    have h0 : (runTasksFrom 0 tasks).2.count DriverOp.reset = 0 :=
      List.count_eq_zero.mpr (reset_not_mem_runTasksFrom tasks 0)
    simp [h0]
  · intro h
    have := runTasksFrom_no_fail tasks 0 h
    constructor
    · simp [Run, this]
    · simp [Run, this, List.range_eq_range']
  · intro k e hk hb
    have := runTasksFrom_first_fail tasks 0 k e hk hb
    constructor
    · simp [Run, this]
    · simp [Run, this, List.range_eq_range']

/-- Witness for `run_driver_contract` on the list [succeed, fail "boom"]
with a failing reset: the execution error is surfaced and both tasks then
reset appear in the trace. -/
theorem run_driver_contract_witness :
    (Run [none, some "boom"] (some "resetfail")).1 = some "boom"
    ∧ (Run [none, some "boom"] (some "resetfail")).2
        = (List.range 2).map DriverOp.execTask ++ [DriverOp.reset] :=
  (run_driver_contract [none, some "boom"] (some "resetfail")).2.2 1 "boom"
    (by rfl)
    (by
      intro j hj
      have hj0 : j = 0 := by omega
      rw [hj0]
      rfl)

theorem refLookupGuard_ok (objMap : List (String × ObjInfo)) (taskID : String)
    (t t2 : BuiltTask) (ref : String)
    (h : refLookupGuard objMap taskID t ref = Except.ok t2) :
    (lookupKey objMap ref).isSome = true := by
  unfold refLookupGuard at h
  cases hl : lookupKey objMap ref with
  | none => rw [hl] at h; simp at h
  | some v => simp [hl]

theorem refLookupGuard_none (objMap : List (String × ObjInfo)) (taskID : String)
    (t : BuiltTask) (ref : String) (h : lookupKey objMap ref = none) :
    refLookupGuard objMap taskID t ref
      = Except.error (taskID ++ ": unreferenced task ID " ++ ref) := by
  unfold refLookupGuard
  rw [h]

theorem GetTask_submitObj (objMap : List (String × ObjInfo)) (taskID : String)
    (ctor : Except String String) :
    GetTask objMap TaskSubmitObj taskID ctor =
      match ctor with
      | Except.error e => Except.error e
      | Except.ok _ => Except.ok BuiltTask.submitObj := by
  unfold GetTask
  rw [if_pos rfl]

theorem GetTask_updateObj (objMap : List (String × ObjInfo)) (taskID : String)
    (ctor : Except String String) :
    GetTask objMap TaskUpdateObj taskID ctor =
      match ctor with
      | Except.error e => Except.error e
      | Except.ok ref => refLookupGuard objMap taskID (BuiltTask.updateObj ref) ref := by
  unfold GetTask
  rw [if_neg (by decide), if_pos rfl]

theorem GetTask_checkObj (objMap : List (String × ObjInfo)) (taskID : String)
    (ctor : Except String String) :
    GetTask objMap TaskCheckObj taskID ctor =
      match ctor with
      | Except.error e => Except.error e
      | Except.ok ref => refLookupGuard objMap taskID (BuiltTask.checkObj ref) ref := by
  unfold GetTask
  rw [if_neg (by decide), if_neg (by decide), if_pos rfl]

theorem GetTask_deleteObj (objMap : List (String × ObjInfo)) (taskID : String)
    (ctor : Except String String) :
    GetTask objMap TaskDeleteObj taskID ctor =
      match ctor with
      | Except.error e => Except.error e
      | Except.ok ref => refLookupGuard objMap taskID (BuiltTask.deleteObj ref) ref := by
  unfold GetTask
  rw [if_neg (by decide), if_neg (by decide), if_neg (by decide), if_pos rfl]

theorem GetTask_checkPod (objMap : List (String × ObjInfo)) (taskID : String)
    (ctor : Except String String) :
    GetTask objMap TaskCheckPod taskID ctor =
      match ctor with
      | Except.error e => Except.error e
      | Except.ok ref => refLookupGuard objMap taskID (BuiltTask.checkPod ref) ref := by
  unfold GetTask
  rw [if_neg (by decide), if_neg (by decide), if_neg (by decide), if_neg (by decide),
    if_neg (by decide), if_pos rfl]

/-- C5: the factory returns a constructed UpdateObj/CheckObj/DeleteObj/
CheckPod task only when its `refTaskId` is registered, and with a successful
construction and an unregistered id it fails with the unreferenced-task-ID
error; the SubmitObj branch never consults the registry; a type outside the
closed enumeration is rejected as unsupported. -/
theorem get_task_registry_guard (objMap : List (String × ObjInfo))
    (taskID ref : String) (ctor : Except String String) :
    (∀ ty ∈ refKinds, ∀ t, GetTask objMap ty taskID ctor = Except.ok t →
        ∃ r, ctor = Except.ok r ∧ (lookupKey objMap r).isSome = true)
    ∧ (∀ ty ∈ refKinds, ctor = Except.ok ref → lookupKey objMap ref = none →
        GetTask objMap ty taskID ctor
          = Except.error (taskID ++ ": unreferenced task ID " ++ ref))
    ∧ (∀ m2 : List (String × ObjInfo),
        GetTask objMap TaskSubmitObj taskID ctor
          = GetTask m2 TaskSubmitObj taskID ctor)
    ∧ (∀ ty, ty ∉ taskKinds →
        GetTask objMap ty taskID ctor
          = Except.error ("unsupported task type " ++ ty)) := by
  refine ⟨?_, ?_, ?_, ?_⟩
  · intro ty hty t h
    have hcases : ty = TaskUpdateObj ∨ ty = TaskCheckObj ∨ ty = TaskDeleteObj
        ∨ ty = TaskCheckPod := by simpa [refKinds] using hty
    rcases hcases with rfl | rfl | rfl | rfl
    · rw [GetTask_updateObj] at h
      cases ctor with
      | error e => simp at h
      | ok r =>
        dsimp only at h
        exact ⟨r, rfl, refLookupGuard_ok objMap taskID _ t r h⟩
    · rw [GetTask_checkObj] at h
      cases ctor with
      | error e => simp at h
      | ok r =>
        dsimp only at h
        exact ⟨r, rfl, refLookupGuard_ok objMap taskID _ t r h⟩
    · rw [GetTask_deleteObj] at h
      cases ctor with
      | error e => simp at h
      | ok r =>
        dsimp only at h
        exact ⟨r, rfl, refLookupGuard_ok objMap taskID _ t r h⟩
    · rw [GetTask_checkPod] at h
      cases ctor with
      | error e => simp at h
      | ok r =>
        dsimp only at h
        exact ⟨r, rfl, refLookupGuard_ok objMap taskID _ t r h⟩
  · intro ty hty hc hl
    subst hc
    have hcases : ty = TaskUpdateObj ∨ ty = TaskCheckObj ∨ ty = TaskDeleteObj
        ∨ ty = TaskCheckPod := by simpa [refKinds] using hty
    rcases hcases with rfl | rfl | rfl | rfl
    · rw [GetTask_updateObj]
      exact refLookupGuard_none objMap taskID _ ref hl
    · rw [GetTask_checkObj]
      exact refLookupGuard_none objMap taskID _ ref hl
    · rw [GetTask_deleteObj]
      exact refLookupGuard_none objMap taskID _ ref hl
    · rw [GetTask_checkPod]
      exact refLookupGuard_none objMap taskID _ ref hl
  · intro m2
    rw [GetTask_submitObj, GetTask_submitObj]
  · intro ty hty
    have hne : ¬ty = TaskSubmitObj ∧ ¬ty = TaskUpdateObj ∧ ¬ty = TaskCheckObj
        ∧ ¬ty = TaskDeleteObj ∧ ¬ty = TaskUpdateNodes ∧ ¬ty = TaskCheckPod
        ∧ ¬ty = TaskSleep ∧ ¬ty = TaskPause := by
      simp only [taskKinds, List.mem_cons, List.mem_singleton] at hty
      push_neg at hty
      simpa using hty
    obtain ⟨h1, h2, h3, h4, h5, h6, h7, h8⟩ := hne
    unfold GetTask
    rw [if_neg h1, if_neg h2, if_neg h3, if_neg h4, if_neg h5, if_neg h6,
      if_neg h7, if_neg h8]

/-- C8: a CheckPod whose referenced ObjInfo lists no pods succeeds
immediately, with an empty adapter-call trace (no Get, List or watch
subscription), for any timeout. -/
theorem check_pod_no_pods (p : CheckPodTaskParams) (c : Cluster)
    (taskID : String) (registry : String → Option ObjInfo)
    (events : List WatchEvent) (info : ObjInfo)
    (href : registry p.refTaskId = some info) (hpods : info.pods = []) :
    Exec p c taskID registry events = (some (Except.ok ()), []) := by
  unfold Exec
  rw [href]
  dsimp only
  rw [hpods]
  simp

/-- Witness for `check_pod_no_pods`, once with `timeout = 0` and once in
watch mode. -/
theorem check_pod_no_pods_witness :
    Exec paramsNoTimeout clusterPending "check" registryNoPods []
      = (some (Except.ok ()), [])
    ∧ Exec paramsTimeout clusterPending "check" registryNoPods
        [WatchEvent.deadline] = (some (Except.ok ()), []) :=
  ⟨check_pod_no_pods paramsNoTimeout clusterPending "check" registryNoPods []
      infoNoPods (by rfl) rfl,
   check_pod_no_pods paramsTimeout clusterPending "check" registryNoPods
      [WatchEvent.deadline] infoNoPods (by rfl) rfl⟩

/-- C10: when `status` is omitted and only `nodeLabels` are given (accepted
by validation), the no-timeout path still compares each phase against the
empty string, so the task fails whenever a listed pod reports a non-empty
phase. -/
theorem check_pod_status_omitted (p : CheckPodTaskParams) (c : Cluster)
    (taskID ns name : String) (pods : List String) (pod : Pod)
    (registry : String → Option ObjInfo) (events : List WatchEvent)
    (info : ObjInfo)
    (hstatus : p.status = "") (href : p.refTaskId.length ≠ 0)
    (hlabels : p.nodeLabels ≠ []) (htimeout : p.timeout = 0)
    (hreg : registry p.refTaskId = some info)
    (hns : info.ns = ns) (hpods : info.pods = pods)
    (hmem : name ∈ pods) (hget : c.getPod ns name = some pod)
    (hphase : pod.phase ≠ "") :
    validate p = Except.ok ()
    ∧ (Exec p c taskID registry events).1
        = some (checkPods p c taskID ns pods).1
    ∧ (checkPods p c taskID ns pods).1 ≠ Except.ok () := by
  have hlen : p.nodeLabels.length ≠ 0 := fun hcon =>
    hlabels (List.length_eq_zero.mp hcon)
  refine ⟨?_, ?_, ?_⟩
  · unfold validate
    rw [if_neg href, if_neg (fun hcon => hlen hcon.2)]
  · unfold Exec
    rw [hreg]
    dsimp only
    have hne : pods ≠ [] := List.ne_nil_of_mem hmem
    have hlp : ¬info.pods.length = 0 := by
      rw [hpods]
      exact fun hcon => hne (List.length_eq_zero.mp hcon)
    rw [if_neg hlp, if_pos htimeout, hns, hpods]
  · intro hok
    have hall := (checkPods_ok_iff p c taskID ns pods).1 hok
    rw [List.all_eq_true] at hall
    have hn := hall name hmem
    unfold podCheckOkB at hn
    rw [hget] at hn
    dsimp only at hn
    rw [hstatus] at hn
    simp at hn
    exact hphase hn.1

/-- Witness for `check_pod_status_omitted`: empty expected status, one
required node label, a single Pending pod. -/
theorem check_pod_status_omitted_witness :
    validate paramsLabelsOnly = Except.ok ()
    ∧ (Exec paramsLabelsOnly clusterPending "check" registryOnePod []).1
        = some (checkPods paramsLabelsOnly clusterPending "check" "ns1" ["p1"]).1
    ∧ (checkPods paramsLabelsOnly clusterPending "check" "ns1" ["p1"]).1
        ≠ Except.ok () :=
  check_pod_status_omitted paramsLabelsOnly clusterPending "check" "ns1" "p1"
    ["p1"] podPending registryOnePod [] infoOnePod rfl (by decide) (by decide)
    rfl (by rfl) rfl rfl (by simp) (by rfl) (by decide)

end Knavigator
